import Mathlib

/-!
Verification of the YouTube channel dashboard's API access layer.

The definitions below are a shallow embedding of the service layer of the
repository (src/services/youtubeService.ts and src/utils/helpers.ts):

* the credential pool (`setApiKeys`, `getNextApiKey`),
* the resilient fetcher (`fetchYouTubeAPI`), instrumented with a count of
  the underlying HTTP requests it issues,
* the channel resolver (`resolveChannelId`),
* the query-service operations (`getChannelVideos`, `getOldestVideo`,
  `getOldestVideoInRange`),
* the display helper `formatNumber`.

Network effects are embedded by passing each operation the responses the
upstream API would give (an oracle), and every operation additionally
reports how many underlying requests it issued, so that statements such as
"issues zero network calls" are expressible. Publish timestamps are
modelled as the numeric epoch value that `new Date(s).getTime()` yields for
the ISO string `s`; parsing is strictly monotone on valid inputs, so all
timestamp comparisons in the source are mirrored faithfully.
-/

namespace YT

/-- Upstream failure reason that triggers credential rotation (first of the
two recognized reasons). -/
def quotaReasonA : String := "quotaExceeded"

/-- Upstream failure reason that triggers credential rotation (second of the
two recognized reasons). -/
def quotaReasonB : String := "dailyLimitExceeded"

/-- Substring the fetcher's catch block looks for to recognize an error
raised by its own retry logic (source line 56: message.includes). -/
def exhaustedMarker : String := "API key(s) failed"

/-- Fallback message when the upstream error payload carries no message
(source line 51). -/
def defaultFetchErrorMsg : String := "Failed to fetch data from YouTube API."

/-- Canonical channel identifiers start with this marker (source line 76). -/
def canonicalIdStart : String := "UC"

/-- Embeds the JavaScript string startsWith test on the character
sequences of the two strings. -/
def strStartsWith (s pre : String) : Bool :=
  pre.toList.isPrefixOf s.toList

/-- Errors of the API access layer, one constructor per distinct throw site
of the source. The carried data is what the thrown message interpolates. -/
inductive ApiError where
  /-- Source line 16: the pool is empty. -/
  | noCredentials
  /-- Source line 34: every key in a pool of the given size failed. -/
  | allExhausted (poolSize : Nat)
  /-- Source line 51: a non-success HTTP response surfaced with the
  upstream error message. -/
  | upstream (message : String)
  /-- A transport-level failure (fetch or body parsing rejected); carries
  the thrown message. -/
  | network (message : String)
  /-- Source line 94: neither resolution path found a channel. -/
  | channelNotFound
deriving DecidableEq, Repr

/-- Message of each error, as the source interpolates it. -/
def ApiError.message : ApiError → String
  | .noCredentials => "Please configure at least one YouTube Data API key in Settings."
  | .allExhausted n =>
      "All " ++ toString n ++ " API key(s) failed, likely due to quota limits. Please try again later or add more keys."
  | .upstream m => m
  | .network m => m
  | .channelNotFound => "Could not find a YouTube channel for the given identifier."

/-- Whether pat occurs as a contiguous run inside the second list. -/
def listHasInfix (pat : List Char) : List Char → Bool
  | [] => pat.isEmpty
  | b :: bs => pat.isPrefixOf (b :: bs) || listHasInfix pat bs

/-- Whether a string contains `exhaustedMarker` as a substring, embedding
the source's error.message.includes check on the character sequence. -/
def hasExhaustedMarker (s : String) : Bool :=
  listHasInfix exhaustedMarker.toList s.toList

/- --------------------------------------------------------------------
formatNumber (src/utils/helpers.ts, lines 6-17), on the numeric path for a
natural-number input (the string branch parses to the same number first;
NaN inputs are out of scope of the claims). toFixed(1) is embedded in
exact decimal arithmetic: the scaled value is rounded to the nearest tenth
(half rounding up). On inputs whose scaled value is exactly representable
this agrees with the JavaScript double computation; the binary-double
rounding of exact-tie inputs is noted and not relied upon by any theorem.
--------------------------------------------------------------------- -/

/-- Whether the string ends in ".0", on its character sequence (the
anchored pattern of the source's regular expression). -/
def endsWithDotZero (s : String) : Bool :=
  decide (s.toList.reverse.take 2 = ['0', '.'])

/-- Replacement of a trailing ".0", embedding the source's
replace of the anchored pattern: drop the last two characters when the
string ends with ".0". -/
def stripTrailingDotZero (s : String) : String :=
  if endsWithDotZero s then String.mk s.toList.dropLast.dropLast else s

/-- The string (n / 1000).toFixed(1), in exact decimal arithmetic. -/
def toFixed1ofThousands (n : Nat) : String :=
  let tenths := (n + 50) / 100
  toString (tenths / 10) ++ "." ++ toString (tenths % 10)

/-- The string (n / 1000000).toFixed(1), in exact decimal arithmetic. -/
def toFixed1ofMillions (n : Nat) : String :=
  let tenths := (n + 50000) / 100000
  toString (tenths / 10) ++ "." ++ toString (tenths % 10)

/-- Embeds formatNumber of src/utils/helpers.ts: numbers at or above one
million are scaled to millions with an M suffix, numbers at or above one
thousand to thousands with a K suffix (a trailing ".0" suppressed in both),
and smaller numbers print plainly. -/
def formatNumber (n : Nat) : String :=
  if 1000000 ≤ n then stripTrailingDotZero (toFixed1ofMillions n) ++ "M"
  else if 1000 ≤ n then stripTrailingDotZero (toFixed1ofThousands n) ++ "K"
  else toString n

/-- C9: formatNumber maps 999 to "999", 1500 to "1.5K" and 2000000 to "2M"
(the trailing ".0" suppressed); every input below 1000 prints as the plain
decimal string, and inputs at or above the K and M thresholds carry the
matching suffix after the scaled, ".0"-stripped value. -/
theorem formatNumber_spec :
    formatNumber 999 = "999" ∧
    formatNumber 1500 = "1.5K" ∧
    formatNumber 2000000 = "2M" ∧
    (∀ n : Nat, n < 1000 → formatNumber n = toString n) ∧
    (∀ n : Nat, 1000 ≤ n → n < 1000000 →
      formatNumber n = stripTrailingDotZero (toFixed1ofThousands n) ++ "K") ∧
    (∀ n : Nat, 1000000 ≤ n →
      formatNumber n = stripTrailingDotZero (toFixed1ofMillions n) ++ "M") := by
  refine ⟨by decide, by decide, by decide, ?_, ?_, ?_⟩
  · intro n h
    unfold formatNumber
    rw [if_neg (by omega), if_neg (by omega)]
  · intro n h1 h2
    unfold formatNumber
    rw [if_neg (by omega), if_pos h1]
  · intro n h1
    unfold formatNumber
    rw [if_pos h1]

/- --------------------------------------------------------------------
Credential pool (src/services/youtubeService.ts, lines 6-22): module-level
apiKeys list and currentKeyIndex cursor, embedded as an explicit state.
--------------------------------------------------------------------- -/

/-- Module state of the service: the key pool and the rotation cursor. -/
structure ApiKeyState where
  apiKeys : List String
  currentKeyIndex : Nat
deriving DecidableEq, Repr

/-- Embeds setApiKeys (lines 9-12): replaces the pool with a copy of the
given list and resets the cursor to 0. -/
def setApiKeys (keys : List String) : ApiKeyState :=
  { apiKeys := keys, currentKeyIndex := 0 }

/-- Embeds getNextApiKey (lines 14-22) on an explicit pool and cursor:
fails when the pool is empty, otherwise returns the key at the cursor and
the cursor advanced by one modulo the pool length. The source indexes the
array directly; the default value of getD is never read in a reachable
state because the cursor stays below the pool length. -/
def getNextApiKey (keys : List String) (idx : Nat) : Except ApiError (String × Nat) :=
  if keys.length = 0 then
    .error .noCredentials
  else
    .ok (keys.getD idx "", (idx + 1) % keys.length)

/-- One next() call on the module state: the returned key (or error) and
the state afterwards. -/
def stepKey (s : ApiKeyState) : Except ApiError String × ApiKeyState :=
  match getNextApiKey s.apiKeys s.currentKeyIndex with
  | .error e => (.error e, s)
  | .ok (k, j) => (.ok k, { apiKeys := s.apiKeys, currentKeyIndex := j })

/-- The module state after n next() calls. -/
def stateAfter (s : ApiKeyState) : Nat → ApiKeyState
  | 0 => s
  | n + 1 => (stepKey (stateAfter s n)).2

/-- Result of the (n+1)th next() call issued from state s. -/
def nthKeyResult (s : ApiKeyState) (n : Nat) : Except ApiError String :=
  (stepKey (stateAfter s n)).1

lemma stateAfter_fresh (keys : List String) (h : keys ≠ []) (n : Nat) :
    stateAfter (setApiKeys keys) n =
      { apiKeys := keys, currentKeyIndex := n % keys.length } := by
  have hlen : keys.length ≠ 0 := by
    simpa using List.length_pos.mpr h |>.ne'
  induction n with
  | zero =>
      simp [stateAfter, setApiKeys, Nat.zero_mod]
  | succ n ih =>
      rw [stateAfter, ih]
      simp only [stepKey, getNextApiKey, hlen, if_neg hlen]
      simp [Nat.mod_add_mod]

lemma nthKeyResult_fresh (keys : List String) (h : keys ≠ []) (n : Nat) :
    nthKeyResult (setApiKeys keys) n = .ok (keys.getD (n % keys.length) "") := by
  have hlen : keys.length ≠ 0 := by
    simpa using List.length_pos.mpr h |>.ne'
  rw [nthKeyResult, stateAfter_fresh keys h n]
  simp [stepKey, getNextApiKey, hlen]

/-- C3: from a freshly configured non-empty pool of size N, the N first
next() selections return every credential exactly once in insertion order,
the (N+1)th selection wraps to the first credential again, and next() on an
empty pool fails with the no-credentials error. -/
theorem getNextApiKey_round_robin (keys : List String) (h : keys ≠ []) :
    (List.range keys.length).map (nthKeyResult (setApiKeys keys)) =
      keys.map Except.ok ∧
    nthKeyResult (setApiKeys keys) keys.length = .ok (keys.head h) ∧
    (stepKey (setApiKeys [])).1 = .error .noCredentials := by
  have hpos : 0 < keys.length := List.length_pos.mpr h
  refine ⟨?_, ?_, ?_⟩
  · apply List.ext_get
    · simp
    · intro i h1 h2
      have hi : i < keys.length := by simpa using h2
      simp only [List.get_eq_getElem, List.getElem_map, List.getElem_range]
      rw [nthKeyResult_fresh keys h i, Nat.mod_eq_of_lt hi]
      rw [List.getD_eq_getElem keys "" hi]
  · rw [nthKeyResult_fresh keys h keys.length, Nat.mod_self]
    rw [List.getD_eq_getElem keys "" hpos]
    simp [List.head_eq_getElem]
  · rfl

/-- Witness for C3 at the concrete three-key pool. -/
theorem getNextApiKey_round_robin_witness :
    (["a", "b", "c"] : List String) ≠ [] ∧
    (List.range 3).map (nthKeyResult (setApiKeys ["a", "b", "c"])) =
      (["a", "b", "c"] : List String).map Except.ok := by
  refine ⟨by decide, ?_⟩
  have h := getNextApiKey_round_robin ["a", "b", "c"] (by decide)
  simpa using h.1

/- --------------------------------------------------------------------
Resilient fetcher (src/services/youtubeService.ts, lines 31-67).

An underlying HTTP request either succeeds with a parsed body, returns a
non-success HTTP response whose structured payload carries an optional
reason code and an optional message, or fails at the transport level (the
fetch or the body parsing rejects). The oracle maps the attempt number to
the response of that attempt's request.
--------------------------------------------------------------------- -/

/-- Outcome of one underlying HTTP request. -/
inductive HttpResp (β : Type) where
  | success (body : β)
  | failure (reason : Option String) (message : Option String)
  | transportError (message : String)

/-- Result of one logical fetcher call: the value or error, the pool
cursor afterwards, and how many underlying HTTP requests were issued (the
instrumentation that makes attempt-count statements expressible). -/
structure FetchOut (β : Type) where
  result : Except ApiError β
  idx : Nat
  requests : Nat

/-- Embeds the reason test of source line 47. -/
def isQuotaReason : Option String → Bool
  | some r => r == quotaReasonA || r == quotaReasonB
  | none => false

/-- Embeds fetchYouTubeAPI (lines 31-67) with the module state passed
explicitly (keys, cursor idx) and the request counter reqs added.

Control flow mirrors the source exactly: the attempt-bound guard throws
AllCredentialsExhausted; getNextApiKey runs outside the try block, so its
error propagates; a quota-class failure with a pool of more than one key
retries via a returned (not awaited) recursive call, so its outcome
bypasses the catch block; any other non-success response throws inside the
try block and therefore lands in the catch block, as does a transport
failure; the catch block rethrows errors carrying the retry-logic marker
and otherwise retries while attempt < poolSize - 1 on pools of more than
one key, rethrowing once those retries are spent. -/
def fetchYouTubeAPI {β : Type} (keys : List String) (resp : Nat → HttpResp β)
    (attempt idx reqs : Nat) : FetchOut β :=
  if _h0 : keys.length ≤ attempt ∧ 0 < keys.length then
    ⟨.error (.allExhausted keys.length), idx, reqs⟩
  else
    match getNextApiKey keys idx with
    | .error e => ⟨.error e, idx, reqs⟩
    | .ok (_key, idx2) =>
      match resp attempt with
      | .success body => ⟨.ok body, idx2, reqs + 1⟩
      | .failure reason msg =>
        if hq : isQuotaReason reason = true ∧ 1 < keys.length then
          fetchYouTubeAPI keys resp (attempt + 1) idx2 (reqs + 1)
        else
          let e := ApiError.upstream (msg.getD defaultFetchErrorMsg)
          if hasExhaustedMarker e.message then ⟨.error e, idx2, reqs + 1⟩
          else if hr : 1 < keys.length ∧ attempt < keys.length - 1 then
            fetchYouTubeAPI keys resp (attempt + 1) idx2 (reqs + 1)
          else ⟨.error e, idx2, reqs + 1⟩
      | .transportError msg =>
        let e := ApiError.network msg
        if hasExhaustedMarker e.message then ⟨.error e, idx2, reqs + 1⟩
        else if hr : 1 < keys.length ∧ attempt < keys.length - 1 then
          fetchYouTubeAPI keys resp (attempt + 1) idx2 (reqs + 1)
        else ⟨.error e, idx2, reqs + 1⟩
termination_by keys.length - attempt
decreasing_by
  · obtain ⟨-, hq2⟩ := hq
    omega
  · obtain ⟨-, hr2⟩ := hr
    omega
  · obtain ⟨-, hr2⟩ := hr
    omega

lemma fetch_guard_eq {β : Type} (keys : List String) (resp : Nat → HttpResp β)
    (attempt idx reqs : Nat) (h : keys.length ≤ attempt) (hp : 0 < keys.length) :
    fetchYouTubeAPI keys resp attempt idx reqs =
      ⟨.error (.allExhausted keys.length), idx, reqs⟩ := by
  rw [fetchYouTubeAPI.eq_def, dif_pos ⟨h, hp⟩]

lemma fetch_quota_step {β : Type} (keys : List String) (resp : Nat → HttpResp β)
    (attempt idx reqs : Nat) (r : Option String) (m : Option String)
    (hlt : attempt < keys.length) (h2 : 1 < keys.length)
    (hfail : resp attempt = .failure r m) (hq : isQuotaReason r = true) :
    fetchYouTubeAPI keys resp attempt idx reqs =
      fetchYouTubeAPI keys resp (attempt + 1) ((idx + 1) % keys.length) (reqs + 1) := by
  rw [fetchYouTubeAPI.eq_def, dif_neg (by omega)]
  simp only [getNextApiKey, if_neg (by omega : ¬keys.length = 0), hfail]
  rw [dif_pos ⟨hq, h2⟩]

lemma fetch_nonquota_retry_step {β : Type} (keys : List String) (resp : Nat → HttpResp β)
    (attempt idx reqs : Nat) (r : Option String) (m : String)
    (hlt : attempt < keys.length - 1) (h2 : 1 < keys.length)
    (hfail : resp attempt = .failure r (some m)) (hq : isQuotaReason r = false)
    (hm : hasExhaustedMarker m = false) :
    fetchYouTubeAPI keys resp attempt idx reqs =
      fetchYouTubeAPI keys resp (attempt + 1) ((idx + 1) % keys.length) (reqs + 1) := by
  rw [fetchYouTubeAPI.eq_def, dif_neg (by omega)]
  simp only [getNextApiKey, if_neg (by omega : ¬keys.length = 0), hfail]
  rw [dif_neg (by simp [hq]), if_neg (by simp [ApiError.message, hm]),
    dif_pos ⟨h2, hlt⟩]

lemma fetch_nonquota_last_step {β : Type} (keys : List String) (resp : Nat → HttpResp β)
    (attempt idx reqs : Nat) (r : Option String) (m : String)
    (hlt : attempt < keys.length) (hstop : ¬(1 < keys.length ∧ attempt < keys.length - 1))
    (hfail : resp attempt = .failure r (some m)) (hq : isQuotaReason r = false)
    (hm : hasExhaustedMarker m = false) :
    fetchYouTubeAPI keys resp attempt idx reqs =
      ⟨.error (.upstream m), (idx + 1) % keys.length, reqs + 1⟩ := by
  rw [fetchYouTubeAPI.eq_def, dif_neg (by omega)]
  simp only [getNextApiKey, if_neg (by omega : ¬keys.length = 0), hfail]
  rw [dif_neg (by simp [hq]), if_neg (by simp [ApiError.message, hm]),
    dif_neg hstop]
  rfl

lemma fetch_all_quota_aux {β : Type} (keys : List String) (resp : Nat → HttpResp β)
    (h2 : 2 ≤ keys.length)
    (hq : ∀ k, ∃ r m, resp k = .failure r m ∧ isQuotaReason r = true) :
    ∀ gas attempt idx reqs, keys.length - attempt = gas → attempt ≤ keys.length →
      (fetchYouTubeAPI keys resp attempt idx reqs).result =
          .error (.allExhausted keys.length) ∧
        (fetchYouTubeAPI keys resp attempt idx reqs).requests = reqs + gas := by
  intro gas
  induction gas with
  | zero =>
      intro attempt idx reqs hgas hle
      rw [fetch_guard_eq keys resp attempt idx reqs (by omega) (by omega)]
      exact ⟨rfl, rfl⟩
  | succ gas ih =>
      intro attempt idx reqs hgas hle
      obtain ⟨r, m, hfail, hquota⟩ := hq attempt
      rw [fetch_quota_step keys resp attempt idx reqs r m (by omega) (by omega)
        hfail hquota]
      obtain ⟨h1, hreq⟩ := ih (attempt + 1) ((idx + 1) % keys.length) (reqs + 1)
        (by omega) (by omega)
      exact ⟨h1, by omega⟩

/-- C1: with a pool of N at least 2 credentials, if every underlying
request reports a quota-class failure reason, one logical fetcher call
fails with the all-credentials-exhausted error reporting the pool size,
after exactly N underlying requests, never more. -/
theorem fetchYouTubeAPI_all_quota_exhausts {β : Type} (keys : List String)
    (resp : Nat → HttpResp β) (idx : Nat) (h2 : 2 ≤ keys.length)
    (hq : ∀ k, ∃ r m, resp k = .failure r m ∧ isQuotaReason r = true) :
    (fetchYouTubeAPI keys resp 0 idx 0).result =
        .error (.allExhausted keys.length) ∧
      (fetchYouTubeAPI keys resp 0 idx 0).requests = keys.length := by
  have h := fetch_all_quota_aux keys resp h2 hq keys.length 0 idx 0 (by omega)
    (by omega)
  exact ⟨h.1, by omega⟩

lemma fetch_all_nonquota_aux {β : Type} (keys : List String)
    (resp : Nat → HttpResp β) (r : Nat → Option String) (m : Nat → String)
    (hf : ∀ k, resp k = .failure (r k) (some (m k)))
    (hq : ∀ k, isQuotaReason (r k) = false)
    (hm : ∀ k, hasExhaustedMarker (m k) = false) :
    ∀ gas attempt idx reqs, keys.length - 1 - attempt = gas →
      attempt < keys.length →
      (fetchYouTubeAPI keys resp attempt idx reqs).result =
          .error (.upstream (m (keys.length - 1))) ∧
        (fetchYouTubeAPI keys resp attempt idx reqs).requests =
          reqs + (keys.length - attempt) := by
  intro gas
  induction gas with
  | zero =>
      intro attempt idx reqs hgas hlt
      have hatt : attempt = keys.length - 1 := by omega
      rw [fetch_nonquota_last_step keys resp attempt idx reqs (r attempt)
        (m attempt) hlt (by omega) (hf attempt) (hq attempt) (hm attempt)]
      subst hatt
      refine ⟨rfl, ?_⟩
      show reqs + 1 = reqs + (keys.length - (keys.length - 1))
      omega
  | succ gas ih =>
      intro attempt idx reqs hgas hlt
      rw [fetch_nonquota_retry_step keys resp attempt idx reqs (r attempt)
        (m attempt) (by omega) (by omega) (hf attempt) (hq attempt) (hm attempt)]
      obtain ⟨h1, hreq⟩ := ih (attempt + 1) ((idx + 1) % keys.length) (reqs + 1)
        (by omega) (by omega)
      exact ⟨h1, by omega⟩

/-- Upstream failure reason used by the C2 counterexample: not quota-class. -/
def badReason : String := "badRequest"

/-- Upstream error message used by the C2 counterexample. -/
def badMessage : String := "The request is invalid."

/-- Responses of a pool whose every request is rejected with a non-quota
HTTP error. -/
def respAllBad : Nat → HttpResp Unit :=
  fun _ => .failure (some badReason) (some badMessage)

/-- Counterexample to C2 as stated: with a pool of two credentials and a
non-quota upstream rejection, the fetcher does NOT stop after the first
underlying request — it issues a second one (two requests in total) before
failing with the upstream message, because the thrown upstream error lands
in the same catch block that retries transport failures. -/
theorem fetchYouTubeAPI_nonquota_retries_counterexample :
    (fetchYouTubeAPI ["a", "b"] respAllBad 0 0 0).requests = 2 ∧
    (fetchYouTubeAPI ["a", "b"] respAllBad 0 0 0).result =
      .error (.upstream badMessage) := by
  have hbr : isQuotaReason (some badReason) = false := by decide
  have hbm : hasExhaustedMarker badMessage = false := by decide
  have h := fetch_all_nonquota_aux ["a", "b"] respAllBad
    (fun _ => some badReason) (fun _ => badMessage)
    (fun k => rfl) (fun k => hbr) (fun k => hbm)
    1 0 0 0 (by decide) (by decide)
  exact ⟨by simpa using h.2, by simpa using h.1⟩

/-- C2 as amended: with a single-credential pool a non-quota upstream
rejection fails immediately with the upstream message after the one
underlying request; with a pool of N credentials whose every request is
rejected with a non-quota reason (messages not containing the retry-logic
marker), the failure is caught and retried with subsequent credentials up
to N underlying requests in total, after which the last upstream message
is surfaced as UpstreamRequestFailed. -/
theorem fetchYouTubeAPI_nonquota_behavior {β : Type} (keys : List String)
    (resp : Nat → HttpResp β) (r : Nat → Option String) (m : Nat → String)
    (idx : Nat) (h1 : 1 ≤ keys.length)
    (hf : ∀ k, resp k = .failure (r k) (some (m k)))
    (hq : ∀ k, isQuotaReason (r k) = false)
    (hm : ∀ k, hasExhaustedMarker (m k) = false) :
    (fetchYouTubeAPI keys resp 0 idx 0).result =
        .error (.upstream (m (keys.length - 1))) ∧
      (fetchYouTubeAPI keys resp 0 idx 0).requests = keys.length := by
  have h := fetch_all_nonquota_aux keys resp r m hf hq hm (keys.length - 1)
    0 idx 0 (by omega) (by omega)
  exact ⟨h.1, by omega⟩

/-- Witness for the amended C2 at a single-key pool: one request, the
upstream message surfaced. -/
theorem fetchYouTubeAPI_nonquota_behavior_witness :
    1 ≤ (["a"] : List String).length ∧
    (fetchYouTubeAPI ["a"] respAllBad 0 0 0).result =
        .error (.upstream badMessage) ∧
      (fetchYouTubeAPI ["a"] respAllBad 0 0 0).requests = 1 := by
  have hbr : isQuotaReason (some badReason) = false := by decide
  have hbm : hasExhaustedMarker badMessage = false := by decide
  have h := fetchYouTubeAPI_nonquota_behavior ["a"] respAllBad
    (fun _ => some badReason) (fun _ => badMessage) 0 (by decide)
    (fun k => rfl) (fun k => hbr) (fun k => hbm)
  exact ⟨by decide, by simpa using h.1, by simpa using h.2⟩

/-- Responses of a two-key pool whose every request reports quotaExceeded. -/
def respAllQuota : Nat → HttpResp Unit :=
  fun _ => .failure (some quotaReasonA) none

/-- Witness for C1: a pool of two keys, every request quota-limited. -/
theorem fetchYouTubeAPI_all_quota_exhausts_witness :
    2 ≤ (["a", "b"] : List String).length ∧
    (fetchYouTubeAPI ["a", "b"] respAllQuota 0 0 0).result =
        .error (.allExhausted 2) ∧
      (fetchYouTubeAPI ["a", "b"] respAllQuota 0 0 0).requests = 2 := by
  have h := fetchYouTubeAPI_all_quota_exhausts ["a", "b"] respAllQuota 0
    (by decide) (fun k => ⟨some quotaReasonA, none, rfl, by decide⟩)
  exact ⟨by decide, by simpa using h.1, by simpa using h.2⟩

/- --------------------------------------------------------------------
Channel resolver (src/services/youtubeService.ts, lines 75-95).

The two possible fetches (the forUsername channels lookup and the channel
search) are embedded as the parsed outcomes the fetcher would deliver for
them; the output records the result and how many fetches were issued, so
that zero-network statements are expressible.
--------------------------------------------------------------------- -/

/-- Item of the forUsername channels response the resolver reads: only
the id field is consulted. -/
structure UsernameItem where
  id : String
deriving DecidableEq, Repr

/-- Item of the channel-search response the resolver reads: the
snippet.channelId field, absent (or empty, which the source's truthiness
test conflates with absent) as none. -/
structure ChannelSearchItem where
  channelId : Option String
deriving DecidableEq, Repr

/-- Result of a resolver run and the number of fetches it issued. -/
structure ResolveOut where
  result : Except ApiError String
  calls : Nat
deriving Repr

/-- Embeds resolveChannelId (lines 75-95): identifiers starting with UC
return unchanged with no fetch; otherwise the forUsername lookup runs
inside a try block whose failure is swallowed, a non-empty item list
returns the first item's id, and anything else falls through to the
search, whose first item's channelId is returned when present; the search
fetch's own error propagates, and an unusable search result fails with
the channel-not-found error. -/
def resolveChannelId (channelIdentifier : String)
    (userResp : Except ApiError (List UsernameItem))
    (searchResp : Except ApiError (List ChannelSearchItem)) : ResolveOut :=
  if strStartsWith channelIdentifier canonicalIdStart then
    ⟨.ok channelIdentifier, 0⟩
  else
    match userResp with
    | .ok (item :: _) => ⟨.ok item.id, 1⟩
    | .ok [] =>
      match searchResp with
      | .error e => ⟨.error e, 2⟩
      | .ok (item :: _) =>
        match item.channelId with
        | some cid => ⟨.ok cid, 2⟩
        | none => ⟨.error .channelNotFound, 2⟩
      | .ok [] => ⟨.error .channelNotFound, 2⟩
    | .error _ =>
      match searchResp with
      | .error e => ⟨.error e, 2⟩
      | .ok (item :: _) =>
        match item.channelId with
        | some cid => ⟨.ok cid, 2⟩
        | none => ⟨.error .channelNotFound, 2⟩
      | .ok [] => ⟨.error .channelNotFound, 2⟩

/-- C4: an identifier of the canonical channel-ID shape (24 characters,
UC-prefixed) is returned unchanged with zero network calls, whatever the
two lookups would have answered — the fast path runs before any other
resolution step. -/
theorem resolveChannelId_canonical_fast_path (ident : String)
    (_h24 : ident.length = 24) (hUC : strStartsWith ident canonicalIdStart = true) :
    ∀ userResp searchResp,
      resolveChannelId ident userResp searchResp = ⟨.ok ident, 0⟩ := by
  intro userResp searchResp
  rw [resolveChannelId.eq_def, if_pos hUC]

/-- Witness for C4 at the 24-character canonical-shaped identifier. -/
theorem resolveChannelId_canonical_fast_path_witness :
    ("UCxxxxxxxxxxxxxxxxxxxxxx" : String).length = 24 ∧
    resolveChannelId "UCxxxxxxxxxxxxxxxxxxxxxx" (.ok []) (.ok []) =
      ⟨.ok "UCxxxxxxxxxxxxxxxxxxxxxx", 0⟩ := by
  refine ⟨by decide, ?_⟩
  exact resolveChannelId_canonical_fast_path "UCxxxxxxxxxxxxxxxxxxxxxx"
    (by decide) (by decide) (.ok []) (.ok [])

/-- C10: the fast path accepts every UC-prefixed input, whatever its
length or remaining characters: such an identifier is returned unchanged
with zero network calls. -/
theorem resolveChannelId_uc_any_length (ident : String)
    (hUC : strStartsWith ident canonicalIdStart = true) :
    ∀ userResp searchResp,
      resolveChannelId ident userResp searchResp = ⟨.ok ident, 0⟩ := by
  intro userResp searchResp
  rw [resolveChannelId.eq_def, if_pos hUC]

/-- Witness for C10 at the 6-character input UCabcd, far from the
24-character canonical shape. -/
theorem resolveChannelId_uc_any_length_witness :
    strStartsWith "UCabcd" canonicalIdStart = true ∧
    ("UCabcd" : String).length = 6 ∧
    resolveChannelId "UCabcd" (.ok []) (.ok []) = ⟨.ok "UCabcd", 0⟩ := by
  refine ⟨by decide, by decide, ?_⟩
  exact resolveChannelId_uc_any_length "UCabcd" (by decide) (.ok []) (.ok [])

/-- C5: for a non-canonical identifier whose legacy-username lookup yields
no items or itself fails (the failure swallowed, not surfaced), the
resolver falls back to the channel search and returns the first search
result's channel identifier; if the search yields no usable result it
fails with the channel-not-found error. Both fetches are issued. -/
theorem resolveChannelId_fallback_search (ident : String)
    (hUC : strStartsWith ident canonicalIdStart = false)
    (userResp : Except ApiError (List UsernameItem))
    (hu : userResp = .ok [] ∨ ∃ e, userResp = .error e) :
    (∀ cid rest, resolveChannelId ident userResp (.ok (⟨some cid⟩ :: rest)) =
      ⟨.ok cid, 2⟩) ∧
    resolveChannelId ident userResp (.ok []) = ⟨.error .channelNotFound, 2⟩ ∧
    (∀ rest, resolveChannelId ident userResp (.ok (⟨none⟩ :: rest)) =
      ⟨.error .channelNotFound, 2⟩) := by
  have hneg : ¬strStartsWith ident canonicalIdStart = true := by simp [hUC]
  rcases hu with hu | ⟨e, hu⟩ <;> subst hu <;>
    exact ⟨fun cid rest => by rw [resolveChannelId.eq_def, if_neg hneg],
      by rw [resolveChannelId.eq_def, if_neg hneg],
      fun rest => by rw [resolveChannelId.eq_def, if_neg hneg]⟩

/-- Witness for C5: a handle whose username lookup returns no items falls
through to the search result's channel ID, and fails with the
channel-not-found error when the search is empty too. -/
theorem resolveChannelId_fallback_search_witness :
    strStartsWith "somehandle" canonicalIdStart = false ∧
    resolveChannelId "somehandle" (.ok [])
        (.ok [ChannelSearchItem.mk (some "UCabc")]) = ⟨.ok "UCabc", 2⟩ ∧
    resolveChannelId "somehandle" (.ok []) (.ok []) =
      ⟨.error .channelNotFound, 2⟩ := by
  have h := resolveChannelId_fallback_search "somehandle" (by decide)
    (.ok []) (Or.inl rfl)
  exact ⟨by decide, by simpa using h.1 "UCabc" [], h.2.1⟩

/- --------------------------------------------------------------------
Query service (src/services/youtubeService.ts, lines 139-353).

Publish timestamps are modelled as the numeric value Date parsing yields.
Each operation takes the parsed outcomes the fetcher would deliver for the
requests it issues.
--------------------------------------------------------------------- -/

/-- The domain video record (src/types VideoStat) on the modelled fields. -/
structure VideoStat where
  id : String
  publishedAt : Nat
  title : String
  description : String
  thumbnailUrl : String
  viewCount : String
  likeCount : String
  commentCount : String
deriving DecidableEq, Repr

/-- Item of the search response getChannelVideos reads: only id.videoId. -/
structure SearchVideoItem where
  videoId : String
deriving DecidableEq, Repr

/-- Search response page: the items and the opaque next-page token. -/
structure SearchPage where
  items : List SearchVideoItem
  nextPageToken : Option String
deriving DecidableEq, Repr

/-- Return shape of getChannelVideos. -/
structure VideosResult where
  videos : List VideoStat
  nextPageToken : Option String
deriving DecidableEq, Repr

/-- Result of a getChannelVideos run and the number of fetches issued. -/
structure ChannelVideosOut where
  result : Except ApiError VideosResult
  calls : Nat

/-- Separator the source joins video ids with. -/
def commaSep : String := ","

/-- Embeds getChannelVideos (lines 139-180): the search fetch's error
propagates; the ids of the found items are joined and an empty joined
string returns the empty result with an undefined token before any
statistics-hydration fetch; otherwise the videos fetch runs and its items
map field-by-field onto the returned stats (the identity on the modelled
fields), the upstream token passed through unchanged. -/
def getChannelVideos (searchResp : Except ApiError SearchPage)
    (videosResp : Except ApiError (List VideoStat)) : ChannelVideosOut :=
  match searchResp with
  | .error e => ⟨.error e, 1⟩
  | .ok page =>
    let videoIds := String.intercalate commaSep
      (page.items.map (fun it => it.videoId))
    if videoIds = "" then ⟨.ok ⟨[], none⟩, 1⟩
    else
      match videosResp with
      | .error e => ⟨.error e, 2⟩
      | .ok vitems => ⟨.ok ⟨vitems, page.nextPageToken⟩, 2⟩

/-- C6: when the search step yields no video items, getChannelVideos
returns the empty video list with an undefined next-page token — not an
error — and issues no statistics-hydration fetch: one call only, whatever
the videos endpoint would have answered. -/
theorem getChannelVideos_empty_search (page : SearchPage)
    (h : page.items = []) :
    ∀ videosResp, getChannelVideos (.ok page) videosResp = ⟨.ok ⟨[], none⟩, 1⟩ := by
  intro videosResp
  obtain ⟨items, tok⟩ := page
  simp only at h
  subst h
  rfl

/-- Witness for C6 at a concrete empty search page. -/
theorem getChannelVideos_empty_search_witness :
    (SearchPage.mk [] (some "tok")).items = [] ∧
    getChannelVideos (.ok (SearchPage.mk [] (some "tok"))) (.ok []) =
      ⟨.ok ⟨[], none⟩, 1⟩ := by
  refine ⟨rfl, ?_⟩
  exact getChannelVideos_empty_search (SearchPage.mk [] (some "tok")) rfl (.ok [])

/- --------------------------------------------------------------------
getOldestVideo (lines 188-228) and getOldestVideoInRange (lines 315-353).
--------------------------------------------------------------------- -/

/-- Item of a playlistItems response on the fields the source reads:
snippet.resourceId.videoId, the publish time, title, description, and the
high (optional) and default thumbnails. -/
structure PlaylistItem where
  videoId : String
  publishedAt : Nat
  title : String
  description : String
  thumbHigh : Option String
  thumbDefault : String
deriving DecidableEq, Repr

/-- Conversion of a playlist item to the returned record (lines 212-221
and 338-345): counts are unavailable from this endpoint and reported as
zero, the thumbnail falls back from high to default. -/
def playlistItemToVideoStat (it : PlaylistItem) : VideoStat :=
  { id := it.videoId, publishedAt := it.publishedAt, title := it.title,
    description := it.description,
    thumbnailUrl := it.thumbHigh.getD it.thumbDefault,
    viewCount := "0", likeCount := "0", commentCount := "0" }

/-- The older of an accumulator and the next item, by publish time. -/
def olderOf (acc y : PlaylistItem) : PlaylistItem :=
  if y.publishedAt < acc.publishedAt then y else acc

/-- Head of the page after the source's ascending stable sort by publish
time (lines 205-209): the first element attaining the minimal timestamp,
computed as a left fold. -/
def oldestFirst (x : PlaylistItem) (xs : List PlaylistItem) : PlaylistItem :=
  xs.foldl olderOf x

/-- Embeds getOldestVideo (lines 188-228): the whole body sits in a try
block whose catch returns null, so a fetch failure degrades to none; an
absent or empty item list returns none; otherwise the first item of the
re-sorted page is converted with zero counts. -/
def getOldestVideo (resp : Except ApiError (List PlaylistItem)) :
    Option VideoStat :=
  match resp with
  | .error _ => none
  | .ok [] => none
  | .ok (x :: xs) => some (playlistItemToVideoStat (oldestFirst x xs))

lemma oldestFirst_cons (x z : PlaylistItem) (zs : List PlaylistItem) :
    oldestFirst x (z :: zs) = oldestFirst (olderOf x z) zs := rfl

lemma oldestFirst_mem (xs : List PlaylistItem) :
    ∀ x, oldestFirst x xs ∈ x :: xs := by
  induction xs with
  | nil => intro x; simp [oldestFirst]
  | cons z zs ih =>
      intro x
      rw [oldestFirst_cons]
      by_cases hc : z.publishedAt < x.publishedAt
      · rw [show olderOf x z = z from if_pos hc]
        exact List.mem_cons_of_mem x (ih z)
      · rw [show olderOf x z = x from if_neg hc]
        rcases List.mem_cons.mp (ih x) with h | h
        · exact List.mem_cons.mpr (Or.inl h)
        · exact List.mem_cons_of_mem x (List.mem_cons_of_mem z h)

lemma oldestFirst_le (xs : List PlaylistItem) :
    ∀ x y, y ∈ x :: xs → (oldestFirst x xs).publishedAt ≤ y.publishedAt := by
  induction xs with
  | nil =>
      intro x y hy
      rcases List.mem_cons.mp hy with h | h
      · subst h; exact Nat.le_refl _
      · cases h
  | cons z zs ih =>
      intro x y hy
      rw [oldestFirst_cons]
      have hox : (olderOf x z).publishedAt ≤ x.publishedAt := by
        rw [olderOf]; split <;> omega
      have hoz : (olderOf x z).publishedAt ≤ z.publishedAt := by
        rw [olderOf]; split <;> omega
      have hacc : (oldestFirst (olderOf x z) zs).publishedAt ≤
          (olderOf x z).publishedAt :=
        ih (olderOf x z) (olderOf x z) (List.mem_cons_self _ _)
      rcases List.mem_cons.mp hy with h | h
      · subst h; exact Nat.le_trans hacc hox
      rcases List.mem_cons.mp h with h2 | h2
      · subst h2; exact Nat.le_trans hacc hoz
      · exact ih (olderOf x z) y (List.mem_cons_of_mem _ h2)

/-- C8: getOldestVideo never propagates an error — any fetch failure
degrades to none; on a non-empty first page it returns some item of the
page whose publish time is minimal among the page, converted with
view, like and comment counts reported as zero; and this degrade-to-null
boundary is getOldestVideo's own: getChannelVideos, by contrast,
propagates its search fetch's error unchanged. -/
theorem getOldestVideo_degrades_and_min :
    (∀ e, getOldestVideo (.error e) = none) ∧
    (∀ x xs, ∃ it, it ∈ x :: xs ∧
      (∀ y ∈ x :: xs, it.publishedAt ≤ y.publishedAt) ∧
      getOldestVideo (.ok (x :: xs)) = some (playlistItemToVideoStat it) ∧
      (playlistItemToVideoStat it).viewCount = "0" ∧
      (playlistItemToVideoStat it).likeCount = "0" ∧
      (playlistItemToVideoStat it).commentCount = "0") ∧
    (∀ e videosResp, getChannelVideos (.error e) videosResp = ⟨.error e, 1⟩) := by
  refine ⟨fun e => rfl, ?_, fun e videosResp => rfl⟩
  intro x xs
  exact ⟨oldestFirst x xs, oldestFirst_mem xs x,
    fun y hy => oldestFirst_le xs x y hy, rfl, rfl, rfl, rfl⟩

/-- The source's inclusive range test (line 334) on the numeric times. -/
def inRangeB (startT endT : Nat) (it : PlaylistItem) : Bool :=
  decide (startT ≤ it.publishedAt) && decide (it.publishedAt ≤ endT)

/-- Embeds the do-while of getOldestVideoInRange (lines 322-350) over the
sequence of pages the successive playlistItems fetches return: each page
is scanned in order and the first item within the range is returned; an
exhausted page sequence (the last fetched page carried no nextPageToken)
returns none. -/
def oldestInRangePages (startT endT : Nat) :
    List (List PlaylistItem) → Option VideoStat
  | [] => none
  | items :: rest =>
    match items.find? (inRangeB startT endT) with
    | some it => some (playlistItemToVideoStat it)
    | none => oldestInRangePages startT endT rest

/-- Embeds getOldestVideoInRange (lines 315-353): with both bounds given
it pages the uploads collection as above; an absent bound delegates to
getOldestVideo on the collection's first page fetch. -/
def getOldestVideoInRange (startDate endDate : Option Nat)
    (pages : List (List PlaylistItem))
    (firstPageResp : Except ApiError (List PlaylistItem)) : Option VideoStat :=
  match startDate, endDate with
  | some s, some e => oldestInRangePages s e pages
  | _, _ => getOldestVideo firstPageResp

lemma find_first_append {α : Type} (p : α → Bool) :
    ∀ l1 l2 : List α, (l1 ++ l2).find? p =
      match l1.find? p with
      | some a => some a
      | none => l2.find? p := by
  intro l1
  induction l1 with
  | nil => intro l2; simp
  | cons a l ih =>
      intro l2
      by_cases hp : p a = true
      · simp [List.find?_cons_of_pos, hp]
      · have hp2 : p a = false := by simp [hp]
        simp [List.find?_cons_of_neg, hp2, ih l2]

lemma oldestInRangePages_flatten (s e : Nat) :
    ∀ pages : List (List PlaylistItem), oldestInRangePages s e pages =
      (pages.flatten.find? (inRangeB s e)).map playlistItemToVideoStat := by
  intro pages
  induction pages with
  | nil => simp [oldestInRangePages]
  | cons items rest ih =>
      rw [oldestInRangePages, List.flatten_cons,
        find_first_append (inRangeB s e) items rest.flatten]
      cases hfind : items.find? (inRangeB s e) with
      | some it => simp
      | none => simpa using ih

/-- C7: with a range [start, end] given, getOldestVideoInRange returns the
first item in collection (upload) order across the fetched pages whose
publish time lies within the range inclusively — the find-first over the
flattened page sequence — and none when pagination exhausts with no item
in range; with an absent bound it delegates to getOldestVideo. The closed
conjunct exhibits a page whose third item is the first in range and is
returned even though the fourth item has a strictly earlier in-range
timestamp. -/
theorem getOldestVideoInRange_first_in_collection_order :
    (∀ s e pages fp, getOldestVideoInRange (some s) (some e) pages fp =
      (pages.flatten.find? (inRangeB s e)).map playlistItemToVideoStat) ∧
    (∀ ed pages fp, getOldestVideoInRange none ed pages fp =
      getOldestVideo fp) ∧
    (∀ sd pages fp, getOldestVideoInRange sd none pages fp =
      getOldestVideo fp) ∧
    oldestInRangePages 10 20
        [[⟨"v1", 30, "", "", none, ""⟩, ⟨"v2", 25, "", "", none, ""⟩,
          ⟨"v3", 15, "", "", none, ""⟩, ⟨"v4", 12, "", "", none, ""⟩]] =
      some (playlistItemToVideoStat ⟨"v3", 15, "", "", none, ""⟩) := by
  refine ⟨?_, fun ed pages fp => rfl, ?_, ?_⟩
  · intro s e pages fp
    exact oldestInRangePages_flatten s e pages
  · intro sd pages fp
    cases sd <;> rfl
  · rfl

end YT
